import Mathlib

/-!
Verification development for the PeachOS kernel core.

The definitions below are a shallow embedding of the code in
`src/kernel.asm` (entry stub and `kernel_registers`), `src/kernel.c`
(terminal, panic, `kernel_page`, `kernel_main`, GDT/TSS configuration) and
`src/kernel.h` (`VGA_WIDTH`, `VGA_HEIGHT`, `ISERR`).  Machine integers are
modelled as `Nat` with explicit reduction modulo 2^16 where the C code uses
`uint16_t` (the terminal cursor variables).  Writes to the VGA text buffer
are modelled by logging each cell store; calls into subsystems whose
sources are not part of this snapshot (heap, IDT, paging, process layer)
are modelled as events in a trace, or, where a claim depends on their
behaviour, as definitions marked `Modelled from the spec:`.
-/

namespace PeachOS

/-- `VGA_WIDTH` from kernel.h. -/
def VGA_WIDTH : Nat := 80

/-- `VGA_HEIGHT` from kernel.h. -/
def VGA_HEIGHT : Nat := 20

/-- `TERMINAL_COLOUR` from kernel.c (0x0F = white on black). -/
def TERMINAL_COLOUR : Nat := 0x0F

/-- Reduction modulo 2^16: the arithmetic of the `uint16_t` cursor
variables `terminal_row` and `terminal_col`. -/
def u16 (n : Nat) : Nat := n % 65536

/-- One logged store into the VGA text buffer: `terminal_putchar x y ...`
writes `val` at cell index `y * VGA_WIDTH + x`. -/
structure Store where
  x : Nat
  y : Nat
  val : Nat
deriving DecidableEq

/-- The terminal state: the two `uint16_t` cursor globals of kernel.c plus
the log of cell stores performed through `terminal_putchar` (most recent
store first). -/
structure TermState where
  terminal_row : Nat
  terminal_col : Nat
  stores : List Store
deriving DecidableEq

/-- `terminal_make_char` from kernel.c: `(colour << 8) | c`, truncated to
the `uint16_t` return type. -/
def terminal_make_char (c colour : Nat) : Nat := u16 (Nat.lor (colour <<< 8) c)

/-- `terminal_putchar` from kernel.c:
`video_mem[(y * VGA_WIDTH) + x] = terminal_make_char(c, colour)`.
The store is logged with its coordinates (index `y * VGA_WIDTH + x`). -/
def terminal_putchar (x y c colour : Nat) (s : TermState) : TermState :=
  { s with stores := { x := x, y := y, val := terminal_make_char c colour } :: s.stores }

/-- The printable-character path of `terminal_writechar` from kernel.c
(the code after the `'\n'` and `0x08` tests): put the character at the
cursor, increment `terminal_col`, wrap the column at `VGA_WIDTH` and the
row at `VGA_HEIGHT`.  It is split out of `terminal_writechar` because
`terminal_backspace` calls `terminal_writechar(' ', 15)` and the space
character (32) always takes this path, which makes the two functions
non-recursive. -/
def terminal_writechar_print (c colour : Nat) (s : TermState) : TermState :=
  let s1 := terminal_putchar s.terminal_col s.terminal_row c colour s
  let s2 := { s1 with terminal_col := u16 (s1.terminal_col + 1) }
  let s3 :=
    if s2.terminal_col ≥ VGA_WIDTH then
      { s2 with terminal_col := 0, terminal_row := u16 (s2.terminal_row + 1) }
    else s2
  if s3.terminal_row ≥ VGA_HEIGHT then { s3 with terminal_row := 0 } else s3

/-- `terminal_backspace` from kernel.c.  `terminal_col -= 1` on a
`uint16_t` is `u16 (. + 65535)`, which underflows to 65535 when the column
is 0. -/
def terminal_backspace (s : TermState) : TermState :=
  if s.terminal_row = 0 ∧ s.terminal_col = 0 then s
  else
    let s1 :=
      if s.terminal_col = 0 then
        { s with terminal_row := u16 (s.terminal_row + 65535), terminal_col := VGA_WIDTH }
      else s
    let s2 := { s1 with terminal_col := u16 (s1.terminal_col + 65535) }
    let s3 := terminal_writechar_print 32 15 s2
    { s3 with terminal_col := u16 (s3.terminal_col + 65535) }

/-- `terminal_writechar` from kernel.c: newline advances the row and
resets the column, 0x08 backspaces, anything else takes the printable
path. -/
def terminal_writechar (c colour : Nat) (s : TermState) : TermState :=
  if c = 10 then { s with terminal_row := u16 (s.terminal_row + 1), terminal_col := 0 }
  else if c = 8 then terminal_backspace s
  else terminal_writechar_print c colour s

/-- `terminal_initialize` from kernel.c: reset the cursor and clear all
`VGA_HEIGHT × VGA_WIDTH` cells to a blank (`' '`, `TERMINAL_COLOUR`).
`video_mem = (uint16_t*)0xB8000` is the buffer the store log models. -/
def terminal_initialize : TermState :=
  (List.range VGA_HEIGHT).foldl
    (fun s y =>
      (List.range VGA_WIDTH).foldl (fun s x => terminal_putchar x y 32 TERMINAL_COLOUR s) s)
    { terminal_row := 0, terminal_col := 0, stores := [] }

/-- A sequence of `terminal_writechar` calls with a fixed colour. -/
def writeChars (cs : List Nat) (colour : Nat) (s : TermState) : TermState :=
  cs.foldl (fun s c => terminal_writechar c colour s) s

/-- `print` from kernel.c: write each character of the string through
`terminal_writechar` with `TERMINAL_COLOUR`. -/
def print (str : String) (s : TermState) : TermState :=
  str.toList.foldl (fun s c => terminal_writechar c.toNat TERMINAL_COLOUR s) s

/-- The cursor-advance rule exactly as the claim states it (spec side, to
be compared with `terminal_writechar`): `col := col + 1`; if `col` reaches
80 then `col := 0` and `row := row + 1`; if `row` then is 20 or more,
`row := 0`. -/
def claimedCursorAdvance (col row : Nat) : Nat × Nat :=
  let col1 := col + 1
  let p := if 80 ≤ col1 then (0, row + 1) else (col1, row)
  (p.1, if 20 ≤ p.2 then 0 else p.2)

/-- Program counter of the `panic` routine from kernel.c: it is about to
run `print(msg)`, or it is inside `while(1) {}`.  The `returned`
constructor stands for control ever leaving `panic`; no step produces
it. -/
inductive PanicPC
  | printing
  | looping
  | returned
deriving DecidableEq

/-- State while executing `panic` from kernel.c: its program counter, the
terminal it prints to, and the CPU interrupt flag, which `panic` never
touches (no cli/sti in the routine). -/
structure PanicSt where
  pc : PanicPC
  term : TermState
  intf : Bool
deriving DecidableEq

/-- One step of `panic(msg)` from kernel.c: `print(msg)` followed by
`while(1) {}`.  The loop step is the identity on the state. -/
def panic_step (msg : String) (s : PanicSt) : PanicSt :=
  match s.pc with
  | .printing => { pc := .looping, term := print msg s.term, intf := s.intf }
  | .looping => s
  | .returned => s

/-- `n` steps of `panic(msg)` from the given state. -/
def panic_run (msg : String) (s : PanicSt) : Nat → PanicSt
  | 0 => s
  | n + 1 => panic_step msg (panic_run msg s n)

/-- Trace events of the CPU-segment model: `kernel_registers` loading the
data selector into DS/ES/GS/FS, and `paging_switch` writing CR3. -/
inductive SegEvent
  | loadDataSegs (sel : Nat)
  | switchDir (dir : Nat)
deriving DecidableEq

/-- CPU state relevant to `kernel_page`: the data segment registers, the
stack segment register, CR3 (as the identity of the loaded page
directory), and a trace of the operations performed. -/
structure CpuSeg where
  ds : Nat
  es : Nat
  fs : Nat
  gs : Nat
  ss : Nat
  cr3 : Nat
  strace : List SegEvent
deriving DecidableEq

/-- `kernel_registers` from kernel.asm: `mov ax, 0x10` then
`mov ds/es/gs/fs, ax` (SS is not written by this routine). -/
def kernel_registers (s : CpuSeg) : CpuSeg :=
  { s with ds := 0x10, es := 0x10, gs := 0x10, fs := 0x10,
           strace := s.strace ++ [.loadDataSegs 0x10] }

/-- Modelled from the spec: `paging_switch` lives in
src/memory/paging/paging.c, which is not under src/.  Per spec §4.4,
`paging_switch(dir)` writes CR3 with the given directory. -/
def paging_switch (dir : Nat) (s : CpuSeg) : CpuSeg :=
  { s with cr3 := dir, strace := s.strace ++ [.switchDir dir] }

/-- `kernel_page` from kernel.c: `kernel_registers()` then
`paging_switch(kernel_chunk)`.  The global `kernel_chunk` is passed as a
parameter. -/
def kernel_page (kernel_chunk : Nat) (s : CpuSeg) : CpuSeg :=
  paging_switch kernel_chunk (kernel_registers s)

/-- `DATA_SEG equ 0x10` from kernel.asm. -/
def DATA_SEG : Nat := 0x10

/-- `CODE_SEG equ 0x08` from kernel.asm. -/
def CODE_SEG : Nat := 0x08

/-- Trace events of the `_start` model: a byte written to an I/O port
(`out port, al`) and the call of `kernel_main`. -/
inductive StartEvent
  | outb (port val : Nat)
  | callKernelMain
deriving DecidableEq

/-- CPU state relevant to the `_start` stub of kernel.asm: EAX (written
through its AX and AL subregisters), the segment registers, the stack
registers, and the trace of port writes and calls. -/
structure StartSt where
  eax : Nat
  ds : Nat
  es : Nat
  fs : Nat
  gs : Nat
  ss : Nat
  ebp : Nat
  esp : Nat
  events : List StartEvent
deriving DecidableEq

/-- `mov ax, v`: replace the low 16 bits of EAX. -/
def setAx (v e : Nat) : Nat := e / 65536 * 65536 + v % 65536

/-- `mov al, v`: replace the low 8 bits of EAX. -/
def setAl (v e : Nat) : Nat := e / 256 * 256 + v % 256

/-- The AX register: low 16 bits of EAX. -/
def ax (e : Nat) : Nat := e % 65536

/-- The AL register: low 8 bits of EAX. -/
def al (e : Nat) : Nat := e % 256

/-- The `_start` entry stub of kernel.asm, instruction by instruction:
load `DATA_SEG` into DS/ES/FS/GS/SS, set EBP and ESP to 0x00200000, remap
the master PIC (`out 0x20, 0x11`; `out 0x21, 0x20`; `out 0x21, 0x04`;
`out 0x21, 0x01`), then `call kernel_main`.  The trailing `jmp $` never
executes further instructions. -/
def startEntry (s : StartSt) : StartSt :=
  let s := { s with eax := setAx DATA_SEG s.eax }
  let s := { s with ds := ax s.eax, es := ax s.eax, fs := ax s.eax,
                    gs := ax s.eax, ss := ax s.eax }
  let s := { s with ebp := 0x00200000 }
  let s := { s with esp := s.ebp }
  let s := { s with eax := setAl 0b00010001 s.eax }
  let s := { s with events := s.events ++ [StartEvent.outb 0x20 (al s.eax)] }
  let s := { s with eax := setAl 0x20 s.eax }
  let s := { s with events := s.events ++ [StartEvent.outb 0x21 (al s.eax)] }
  let s := { s with eax := setAl 0x04 s.eax }
  let s := { s with events := s.events ++ [StartEvent.outb 0x21 (al s.eax)] }
  let s := { s with eax := setAl 0x01 s.eax }
  let s := { s with events := s.events ++ [StartEvent.outb 0x21 (al s.eax)] }
  { s with events := s.events ++ [StartEvent.callKernelMain] }

/-- Modelled from the spec: `PEACHOS_ALL_OK` is defined in status.h, which
is not under src/.  Per spec §7, `0 = OK`. -/
def PEACHOS_ALL_OK : Int := 0

/-- Modelled from the spec: `KERNEL_DATA_SELECTOR` is defined in config.h,
which is not under src/.  Per spec §4.1 the kernel data selector is the
one kernel.asm names `DATA_SEG` (0x10). -/
def KERNEL_DATA_SELECTOR : Nat := 0x10

/-- Modelled from the spec: `PEACHOS_TOTAL_GDT_SEGMENTS` is defined in
config.h, which is not under src/.  Per spec §4.1 there are six
descriptors, matching the six-element initializer of `gdt_structured` in
kernel.c. -/
def PEACHOS_TOTAL_GDT_SEGMENTS : Nat := 6

/-- One entry of the `gdt_structured` array from kernel.c:
`{base, limit, type}`. -/
structure GdtStructured where
  base : Nat
  limit : Nat
  type : Nat
deriving DecidableEq

/-- The `gdt_structured` initializer from kernel.c.  `&tss` (the address
of the singleton TSS) and `sizeof(tss)` come from outside this
translation unit and are passed as parameters. -/
def gdt_structured (tssAddr szTss : Nat) : List GdtStructured :=
  [ { base := 0x00, limit := 0x00, type := 0x00 },
    { base := 0x00, limit := 0xffffffff, type := 0x9a },
    { base := 0x00, limit := 0xffffffff, type := 0x92 },
    { base := 0x00, limit := 0xffffffff, type := 0xf8 },
    { base := 0x00, limit := 0xffffffff, type := 0xf2 },
    { base := tssAddr, limit := szTss, type := 0xE9 } ]

/-- Events of the `kernel_main` boot sequence, one per statement or
subsystem call of kernel.c's `kernel_main`, in execution order. -/
inductive KEvent
  | evTerminalInit
  | evGdtMemset
  | evGdtBuild
  | evGdtLoad
  | evKheapInit
  | evPrint (msg : String)
  | evFsInit
  | evDiskSearchAndInit
  | evIdtInit
  | evTssMemset
  | evTssSetEsp0 (v : Nat)
  | evTssSetSs0 (v : Nat)
  | evTssLoad (sel : Nat)
  | evPagingNew4gb
  | evPagingSwitchKernel
  | evEnablePaging
  | evIsr80hRegisterCommands
  | evKeyboardInit
  | evProcessLoadSwitch (path : String)
  | evArgMemset
  | evStrcpyArg (msg : String)
  | evInjectArguments (pid : Nat)
  | evTaskRunFirstEverTask
  | evPanic (msg : String)
deriving DecidableEq, BEq

/-- State threaded through `kernel_main`: the TSS fields kernel.c writes
(`esp0`, `ss0`; the `struct tss` definition is outside src/, the spec
names these two fields), the local `command_argument` buffer, the
argument lists held by each loaded process (in load order), the current
process handle, and the event trace. -/
structure KState where
  tss_esp0 : Nat
  tss_ss0 : Nat
  argBuffer : String
  processes : List (List String)
  curProc : Option Nat
  events : List KEvent
deriving DecidableEq

/-- Modelled from the spec: `process_load_switch` lives in
src/task/process.c, which is not under src/.  Per spec §4.10 it loads the
file as a new process and makes it the current one; `res` is the status
oracle standing for its return code.  On success a fresh process with no
injected arguments is appended and becomes current; on failure no process
is recorded (kernel_main panics on that path). -/
def process_load_switch (path : String) (res : Int) (s : KState) : KState :=
  if res = PEACHOS_ALL_OK then
    { s with processes := s.processes ++ [[]],
             curProc := some s.processes.length,
             events := s.events ++ [.evProcessLoadSwitch path] }
  else { s with events := s.events ++ [.evProcessLoadSwitch path] }

/-- Modelled from the spec: `process_inject_arguments` lives in
src/task/process.c, which is not under src/.  Per spec §4.10 and §3 it
copies the argument list into the process's own storage (a kernel buffer
mapped into the process), so later writes to the caller's buffer do not
alter what was injected.  The `none` branch is never reached on the boot
path. -/
def process_inject_arguments (pid : Option Nat) (args : List String) (s : KState) : KState :=
  match pid with
  | some i => { s with processes := s.processes.set i args,
                       events := s.events ++ [.evInjectArguments i] }
  | none => s

/-- `kernel_main` from kernel.c, statement by statement.  `r1` and `r2`
are the status oracles for the two `process_load_switch("0:/blank.elf")`
calls.  Calls into subsystems whose state no claim inspects are recorded
as trace events only; `panic` never returns, so each failure branch ends
the trace at its `evPanic` event. -/
def kernel_main (r1 r2 : Int) (s0 : KState) : KState :=
  let s := { s0 with events := s0.events ++
    [KEvent.evTerminalInit, KEvent.evGdtMemset, KEvent.evGdtBuild, KEvent.evGdtLoad,
     KEvent.evKheapInit, KEvent.evPrint "Welcome to PeachOS!\n", KEvent.evFsInit,
     KEvent.evDiskSearchAndInit, KEvent.evIdtInit] }
  let s := { s with tss_esp0 := 0, tss_ss0 := 0, events := s.events ++ [KEvent.evTssMemset] }
  let s := { s with tss_esp0 := 0x600000, events := s.events ++ [KEvent.evTssSetEsp0 0x600000] }
  let s := { s with tss_ss0 := KERNEL_DATA_SELECTOR,
                    events := s.events ++ [KEvent.evTssSetSs0 KERNEL_DATA_SELECTOR] }
  let s := { s with events := s.events ++
    [KEvent.evTssLoad 0x28, KEvent.evPagingNew4gb, KEvent.evPagingSwitchKernel,
     KEvent.evEnablePaging, KEvent.evIsr80hRegisterCommands, KEvent.evKeyboardInit] }
  let s := process_load_switch "0:/blank.elf" r1 s
  if r1 ≠ PEACHOS_ALL_OK then
    { s with events := s.events ++ [KEvent.evPanic "Failed to load blank.elf\n"] }
  else
    let s := { s with argBuffer := "", events := s.events ++ [KEvent.evArgMemset] }
    let s := { s with argBuffer := "Testing!",
                      events := s.events ++ [KEvent.evStrcpyArg "Testing!"] }
    let s := process_inject_arguments s.curProc [s.argBuffer] s
    let s := process_load_switch "0:/blank.elf" r2 s
    if r2 ≠ PEACHOS_ALL_OK then
      { s with events := s.events ++ [KEvent.evPanic "Failed to load blank.elf\n"] }
    else
      let s := { s with argBuffer := "Abc!",
                        events := s.events ++ [KEvent.evStrcpyArg "Abc!"] }
      let s := process_inject_arguments s.curProc [s.argBuffer] s
      { s with events := s.events ++ [KEvent.evTaskRunFirstEverTask] }

/-- The state at kernel entry: zeroed globals (BSS), no processes, empty
trace. -/
def initKState : KState :=
  { tss_esp0 := 0, tss_ss0 := 0, argBuffer := "", processes := [],
    curProc := none, events := [] }

/-- A 32-bit word read as a signed `int`: the `(int)value` cast in the
`ISERR` macro of kernel.h. -/
def toSigned32 (v : Nat) : Int :=
  if v < 2147483648 then (v : Int) else (v : Int) - 4294967296

/-- `ISERR` from kernel.h: `((int)value < 0)`. -/
def ISERR (value : Nat) : Bool := decide (toSigned32 value < 0)

set_option maxRecDepth 100000

theorem al_setAl (v e : Nat) : al (setAl v e) = v % 256 := by
  unfold al setAl; omega

theorem ax_setAx (v e : Nat) : ax (setAx v e) = v % 65536 := by
  unfold ax setAx; omega

theorem panic_run_loops (msg : String) (t0 : TermState) (intf : Bool) :
    ∀ n, 1 ≤ n →
      panic_run msg { pc := PanicPC.printing, term := t0, intf := intf } n =
        { pc := PanicPC.looping, term := print msg t0, intf := intf } := by
  intro n
  induction n with
  | zero => intro h; omega
  | succ k ih =>
    intro _
    rcases Nat.eq_zero_or_pos k with hk | hk
    · subst hk; rfl
    · simp only [panic_run, ih hk]; rfl

/-- C1: the claim fails on the code.  After `terminal_initialize`, the
`terminal_writechar` sequence newline (10), backspace (0x08), 'a' (97)
makes `terminal_putchar` store the 'a' cell at x = 65535:
`terminal_backspace` underflows the `uint16_t` column to 65535 when it
backs up across a line start, so the store index `y*80 + x` lies far
outside the 80×20 buffer, contrary to the claimed bound `0 ≤ x < 80`. -/
theorem c1_store_out_of_bounds :
    (writeChars [10, 8, 97] 15 terminal_initialize).stores.head? =
      some { x := 65535, y := 1, val := terminal_make_char 97 15 }
    ∧ ¬ (65535 < VGA_WIDTH) :=
  ⟨rfl, by decide⟩

/-- C2: on the success path (both `process_load_switch` calls return
`PEACHOS_ALL_OK`), `kernel_main` performs the boot steps in exactly the
spec's stated order: console init, GDT build and load, kernel heap init,
filesystem init and disk probe, IDT init, TSS setup and load, kernel page
directory build, switch and paging enable, syscall command registration,
keyboard init, process loads, and finally `task_run_first_ever_task`. -/
theorem c2_boot_order :
    (kernel_main PEACHOS_ALL_OK PEACHOS_ALL_OK initKState).events =
      [KEvent.evTerminalInit, KEvent.evGdtMemset, KEvent.evGdtBuild, KEvent.evGdtLoad,
       KEvent.evKheapInit, KEvent.evPrint "Welcome to PeachOS!\n", KEvent.evFsInit,
       KEvent.evDiskSearchAndInit, KEvent.evIdtInit, KEvent.evTssMemset,
       KEvent.evTssSetEsp0 0x600000, KEvent.evTssSetSs0 0x10, KEvent.evTssLoad 0x28,
       KEvent.evPagingNew4gb, KEvent.evPagingSwitchKernel, KEvent.evEnablePaging,
       KEvent.evIsr80hRegisterCommands, KEvent.evKeyboardInit,
       KEvent.evProcessLoadSwitch "0:/blank.elf", KEvent.evArgMemset,
       KEvent.evStrcpyArg "Testing!", KEvent.evInjectArguments 0,
       KEvent.evProcessLoadSwitch "0:/blank.elf", KEvent.evStrcpyArg "Abc!",
       KEvent.evInjectArguments 1, KEvent.evTaskRunFirstEverTask] := rfl

/-- C5: `ISERR` classifies a 32-bit value as an error exactly when its
sign bit is set (the value is at least 2^31, i.e. negative as a signed
32-bit integer); the OK status 0 and every positive value are never
classified as errors. -/
theorem c5_iserr_sign_bit (v : Nat) (hv : v < 4294967296) :
    ((ISERR v = true) ↔ 2147483648 ≤ v)
    ∧ ISERR 0 = false
    ∧ (0 < toSigned32 v → ISERR v = false) := by
  have key : ISERR v = true ↔ 2147483648 ≤ v := by
    unfold ISERR toSigned32
    rcases lt_or_ge v 2147483648 with h1 | h1
    · rw [if_pos h1]
      simp only [decide_eq_true_eq]
      omega
    · rw [if_neg (by omega)]
      simp only [decide_eq_true_eq]
      constructor
      · intro _; exact h1
      · intro _; omega
  refine ⟨key, by decide, ?_⟩
  intro hpos
  rcases Bool.eq_false_or_eq_true (ISERR v) with h | h
  · exfalso
    have hs := key.mp h
    unfold toSigned32 at hpos
    rw [if_neg (by omega)] at hpos
    omega
  · exact h

/-- Witness for C5 at the concrete input 3. -/
theorem c5_iserr_sign_bit_witness :
    3 < 4294967296
    ∧ (((ISERR 3 = true) ↔ 2147483648 ≤ 3)
       ∧ ISERR 0 = false
       ∧ (0 < toSigned32 3 → ISERR 3 = false)) :=
  ⟨by decide, c5_iserr_sign_bit 3 (by decide)⟩

/-- C6: the success-path boot produces two process instances, the first
holding the injected argument list `["Testing!"]` and the second
`["Abc!"]`; the reuse of the local argument buffer for the second
injection does not alter the first process's copy, and
`process_load_switch("0:/blank.elf")` is called exactly twice. -/
theorem c6_two_processes_arguments :
    (kernel_main PEACHOS_ALL_OK PEACHOS_ALL_OK initKState).processes =
      [["Testing!"], ["Abc!"]]
    ∧ ((kernel_main PEACHOS_ALL_OK PEACHOS_ALL_OK initKState).events.count
        (KEvent.evProcessLoadSwitch "0:/blank.elf")) = 2 :=
  ⟨rfl, rfl⟩

/-- C7: `kernel_page` first runs `kernel_registers` (loading the kernel
data selector 0x10 into the data segment registers DS, ES, FS, GS) and
then `paging_switch` on the kernel chunk; afterwards every data segment
register holds 0x10 and CR3 holds the kernel chunk's directory. -/
theorem c7_kernel_page (chunk : Nat) (s : CpuSeg) :
    kernel_page chunk s = paging_switch chunk (kernel_registers s)
    ∧ (kernel_page chunk s).ds = 0x10
    ∧ (kernel_page chunk s).es = 0x10
    ∧ (kernel_page chunk s).fs = 0x10
    ∧ (kernel_page chunk s).gs = 0x10
    ∧ (kernel_page chunk s).cr3 = chunk
    ∧ (kernel_page chunk s).strace =
        s.strace ++ [SegEvent.loadDataSegs 0x10, SegEvent.switchDir chunk] := by
  refine ⟨rfl, rfl, rfl, rfl, rfl, rfl, ?_⟩
  simp [kernel_page, kernel_registers, paging_switch]

/-- C8: before `kernel_main` is called, `_start` remaps the master PIC:
it writes the initialization command 0x11 to port 0x20, then the vector
offset 0x20, ICW3 = 0x04 and ICW4 = 0x01 to port 0x21, in that order. -/
theorem c8_pic_remap (s0 : StartSt) :
    (startEntry s0).events = s0.events ++
      [StartEvent.outb 0x20 0x11, StartEvent.outb 0x21 0x20,
       StartEvent.outb 0x21 0x04, StartEvent.outb 0x21 0x01,
       StartEvent.callKernelMain] := by
  simp [startEntry, al_setAl, List.append_assoc]

/-- C9: `_start` establishes the assumed machine state before calling
`kernel_main`: DS, ES, FS, GS and SS hold the data selector 0x10, and
both EBP and ESP hold the stack base 0x00200000. -/
theorem c9_entry_state (s0 : StartSt) :
    (startEntry s0).ds = DATA_SEG
    ∧ (startEntry s0).es = DATA_SEG
    ∧ (startEntry s0).fs = DATA_SEG
    ∧ (startEntry s0).gs = DATA_SEG
    ∧ (startEntry s0).ss = DATA_SEG
    ∧ (startEntry s0).ebp = 0x00200000
    ∧ (startEntry s0).esp = 0x00200000
    ∧ StartEvent.callKernelMain ∈ (startEntry s0).events := by
  refine ⟨?_, ?_, ?_, ?_, ?_, rfl, rfl, ?_⟩ <;>
    simp [startEntry, ax_setAx, DATA_SEG]

/-- C3: the kernel installs exactly six GDT descriptors — null; kernel
code, kernel data, user code and user data with base 0 and limit 4 GiB;
and a TSS descriptor with base `&tss`, limit `sizeof(tss)` and type
0xE9 — and `kernel_main` sets `tss.ss0` to the kernel data selector and
`tss.esp0` to the top of the kernel stack region (0x600000) before
loading the TSS selector 0x28. -/
theorem c3_gdt_and_tss (tssAddr szTss : Nat) :
    (gdt_structured tssAddr szTss).length = PEACHOS_TOTAL_GDT_SEGMENTS
    ∧ gdt_structured tssAddr szTss =
        [{ base := 0, limit := 0, type := 0 },
         { base := 0, limit := 0xffffffff, type := 0x9a },
         { base := 0, limit := 0xffffffff, type := 0x92 },
         { base := 0, limit := 0xffffffff, type := 0xf8 },
         { base := 0, limit := 0xffffffff, type := 0xf2 },
         { base := tssAddr, limit := szTss, type := 0xE9 }]
    ∧ (∀ r1 r2 : Int,
        (kernel_main r1 r2 initKState).tss_esp0 = 0x600000
        ∧ (kernel_main r1 r2 initKState).tss_ss0 = KERNEL_DATA_SELECTOR
        ∧ ∃ post, (kernel_main r1 r2 initKState).events =
            [KEvent.evTerminalInit, KEvent.evGdtMemset, KEvent.evGdtBuild, KEvent.evGdtLoad,
             KEvent.evKheapInit, KEvent.evPrint "Welcome to PeachOS!\n", KEvent.evFsInit,
             KEvent.evDiskSearchAndInit, KEvent.evIdtInit, KEvent.evTssMemset,
             KEvent.evTssSetEsp0 0x600000, KEvent.evTssSetSs0 KERNEL_DATA_SELECTOR,
             KEvent.evTssLoad 0x28] ++ post) := by
  refine ⟨rfl, rfl, ?_⟩
  intro r1 r2
  by_cases h1 : r1 = PEACHOS_ALL_OK <;> by_cases h2 : r2 = PEACHOS_ALL_OK <;>
    simp only [kernel_main, process_load_switch, process_inject_arguments, h1, h2,
      ne_eq, not_true_eq_false, not_false_eq_true, if_true, if_false, ite_true,
      ite_false, List.nil_append, List.append_assoc, List.cons_append, initKState] <;>
    exact ⟨trivial, trivial, _, rfl⟩

/-- C4: if the first `process_load_switch("0:/blank.elf")` fails,
`kernel_main` ends at the panic call, and `panic` prints its message once
and then loops forever — after any positive number of steps it is still
in the loop (never in a returned state) with the interrupt flag exactly
as it was. -/
theorem c4_panic_on_load_failure (r1 r2 : Int) (h : r1 ≠ PEACHOS_ALL_OK)
    (t0 : TermState) (intf : Bool) (n : Nat) (hn : 1 ≤ n) :
    (kernel_main r1 r2 initKState).events =
      [KEvent.evTerminalInit, KEvent.evGdtMemset, KEvent.evGdtBuild, KEvent.evGdtLoad,
       KEvent.evKheapInit, KEvent.evPrint "Welcome to PeachOS!\n", KEvent.evFsInit,
       KEvent.evDiskSearchAndInit, KEvent.evIdtInit, KEvent.evTssMemset,
       KEvent.evTssSetEsp0 0x600000, KEvent.evTssSetSs0 0x10, KEvent.evTssLoad 0x28,
       KEvent.evPagingNew4gb, KEvent.evPagingSwitchKernel, KEvent.evEnablePaging,
       KEvent.evIsr80hRegisterCommands, KEvent.evKeyboardInit,
       KEvent.evProcessLoadSwitch "0:/blank.elf",
       KEvent.evPanic "Failed to load blank.elf\n"]
    ∧ panic_run "Failed to load blank.elf\n"
        { pc := PanicPC.printing, term := t0, intf := intf } n =
        { pc := PanicPC.looping, term := print "Failed to load blank.elf\n" t0, intf := intf }
    ∧ (panic_run "Failed to load blank.elf\n"
        { pc := PanicPC.printing, term := t0, intf := intf } n).pc ≠ PanicPC.returned := by
  refine ⟨?_, panic_run_loops _ _ _ n hn, ?_⟩
  · have h0 : ¬ (r1 = PEACHOS_ALL_OK) := h
    simp [kernel_main, process_load_switch, h0, KERNEL_DATA_SELECTOR, initKState]
  · rw [panic_run_loops _ _ _ n hn]
    simp

/-- Witness for C4 at the concrete inputs r1 = -1, r2 = 0, an empty
terminal, interrupt flag true, and one step of panic. -/
theorem c4_panic_on_load_failure_witness :
    (-1 : Int) ≠ PEACHOS_ALL_OK
    ∧ 1 ≤ 1
    ∧ ((kernel_main (-1) 0 initKState).events =
        [KEvent.evTerminalInit, KEvent.evGdtMemset, KEvent.evGdtBuild, KEvent.evGdtLoad,
         KEvent.evKheapInit, KEvent.evPrint "Welcome to PeachOS!\n", KEvent.evFsInit,
         KEvent.evDiskSearchAndInit, KEvent.evIdtInit, KEvent.evTssMemset,
         KEvent.evTssSetEsp0 0x600000, KEvent.evTssSetSs0 0x10, KEvent.evTssLoad 0x28,
         KEvent.evPagingNew4gb, KEvent.evPagingSwitchKernel, KEvent.evEnablePaging,
         KEvent.evIsr80hRegisterCommands, KEvent.evKeyboardInit,
         KEvent.evProcessLoadSwitch "0:/blank.elf",
         KEvent.evPanic "Failed to load blank.elf\n"]
       ∧ panic_run "Failed to load blank.elf\n"
          { pc := PanicPC.printing, term := { terminal_row := 0, terminal_col := 0, stores := [] },
            intf := true } 1 =
          { pc := PanicPC.looping,
            term := print "Failed to load blank.elf\n"
              { terminal_row := 0, terminal_col := 0, stores := [] },
            intf := true }
       ∧ (panic_run "Failed to load blank.elf\n"
          { pc := PanicPC.printing, term := { terminal_row := 0, terminal_col := 0, stores := [] },
            intf := true } 1).pc ≠ PanicPC.returned) :=
  ⟨by decide, by decide,
   c4_panic_on_load_failure (-1) 0 (by decide)
     { terminal_row := 0, terminal_col := 0, stores := [] } true 1 (by decide)⟩

/-- C10: for a printable character (neither newline 10 nor backspace 8)
and an on-screen cursor, `terminal_writechar` stores the character at the
current cursor cell and advances the cursor by exactly the claimed rule
(`claimedCursorAdvance`): increment the column, wrap to column 0 of the
next row at 80, and wrap the row to 0 at 20 — overwriting the top row
rather than scrolling. -/
theorem c10_printable_rule (c colour : Nat) (s : TermState)
    (hc1 : c ≠ 10) (hc2 : c ≠ 8)
    (hcol : s.terminal_col < 80) (hrow : s.terminal_row < 20) :
    terminal_writechar c colour s =
      { terminal_row := (claimedCursorAdvance s.terminal_col s.terminal_row).2,
        terminal_col := (claimedCursorAdvance s.terminal_col s.terminal_row).1,
        stores := { x := s.terminal_col, y := s.terminal_row,
                    val := terminal_make_char c colour } :: s.stores } := by
  obtain ⟨row, col, st⟩ := s
  simp only at hcol hrow
  have e1 : u16 (col + 1) = col + 1 := Nat.mod_eq_of_lt (by omega)
  simp only [terminal_writechar, if_neg hc1, if_neg hc2, terminal_writechar_print,
    terminal_putchar, claimedCursorAdvance, VGA_WIDTH, VGA_HEIGHT]
  by_cases h80 : 80 ≤ col + 1
  · have e2 : u16 (row + 1) = row + 1 := Nat.mod_eq_of_lt (by omega)
    by_cases h20 : 20 ≤ row + 1
    · simp [e1, e2, h80, h20, ge_iff_le]
    · simp [e1, e2, h80, h20, ge_iff_le]
  · have hr : ¬ 20 ≤ row := by omega
    simp [e1, h80, hr, ge_iff_le]

/-- Witness for C10 at character 'A' (65), colour 15, and the initial
cursor (0, 0) with an empty store log. -/
theorem c10_printable_rule_witness :
    (65 : Nat) ≠ 10
    ∧ (65 : Nat) ≠ 8
    ∧ ({ terminal_row := 0, terminal_col := 0, stores := [] } : TermState).terminal_col < 80
    ∧ ({ terminal_row := 0, terminal_col := 0, stores := [] } : TermState).terminal_row < 20
    ∧ terminal_writechar 65 15 { terminal_row := 0, terminal_col := 0, stores := [] } =
        { terminal_row := (claimedCursorAdvance 0 0).2,
          terminal_col := (claimedCursorAdvance 0 0).1,
          stores := [{ x := 0, y := 0, val := terminal_make_char 65 15 }] } :=
  ⟨by decide, by decide, by decide, by decide,
   c10_printable_rule 65 15 { terminal_row := 0, terminal_col := 0, stores := [] }
     (by decide) (by decide) (by decide) (by decide)⟩

end PeachOS
